import Mathlib

/-!
Shallow embedding of the authenticated retrying HTTP client in
`examples/common/client.py` (class `StatusPageClient`), together with the
configuration object from `examples/common/config.py`.

Modelling conventions:
* Python exceptions of the `APIError` taxonomy become the inductive
  `ClientError`; exceptions outside the taxonomy (such as
  `json.JSONDecodeError` raised by `response.json()`, or `KeyError` from a
  missing dictionary field) become `Failure.pythonError`, so that escaping
  the typed taxonomy is observable.
* An HTTP response is its status code, its decoded body text, and the result
  of `response.json()` (`none` when the body is not valid JSON — in Python
  the call would raise).  Python's truthiness test `if response.content`
  is the test `text ≠ ""`.
* Floating point backoff arithmetic is modelled over `ℚ`; the operations the
  code performs (`min`, multiplication) are exact on the values the spec
  discusses.
* `time.sleep` becomes a trace: the retry loop returns the list of sleep
  durations it would have performed, in order.
* `request_func` is modelled as the sequence of responses the server returns,
  indexed by the number of previous calls in the same retry loop.
-/

namespace StatusPage

/-- The typed error taxonomy of `client.py` (`APIError` and subclasses).
Every constructor carries the message string the Python code builds. -/
inductive ClientError : Type
  | validationError (msg : String)
  | authenticationError (msg : String)
  | notFoundError (msg : String)
  | rateLimitError (msg : String)
  | transientAPIError (msg : String)
  | apiError (msg : String)
deriving DecidableEq

/-- A failure surfacing from a client operation: either one of the typed
`APIError` exceptions, or a Python exception outside that taxonomy
(e.g. `JSONDecodeError`, `KeyError`), which the client code never catches. -/
inductive Failure : Type
  | typed (e : ClientError)
  | pythonError (kind : String)
deriving DecidableEq

/-- `true` exactly on failures belonging to the typed `APIError` taxonomy. -/
def Failure.isTyped : Failure → Bool
  | .typed _ => true
  | .pythonError _ => false

/-- A decoded JSON body, modelled as a flat association list of string
fields (sufficient for the fields the client reads). -/
abbrev Payload := List (String × String)

/-- An HTTP response: status code, body text, and the result of
`response.json()` (`none` when the body is not valid JSON). -/
structure Response : Type where
  status_code : Nat
  text : String
  json : Option Payload
deriving DecidableEq

/-- Python's `s or default` on strings: the default replaces an empty
(falsy) string. -/
def orDefault (s d : String) : String :=
  if s = "" then d else s

/-- Python's truthiness of an `Optional[str]`: `None` and `""` are falsy. -/
def truthy : Option String → Bool
  | none => false
  | some s => !s.isEmpty

/-- `StatusPageClient._handle_response`: classify a response by status code,
returning the decoded payload on 200/201 and the appropriate error
otherwise.  A 200 with empty body short-circuits to the empty mapping; a
200 with a non-empty undecodable body, or a 201 with an undecodable body,
raises `json.JSONDecodeError` (outside the typed taxonomy). -/
def handle_response (r : Response) : Except Failure Payload :=
  if r.status_code = 200 then
    if r.text = "" then .ok []
    else
      match r.json with
      | some p => .ok p
      | none => .error (.pythonError "JSONDecodeError")
  else if r.status_code = 201 then
    match r.json with
    | some p => .ok p
    | none => .error (.pythonError "JSONDecodeError")
  else if r.status_code = 400 then
    .error (.typed (.validationError
      ("Validation error: " ++ orDefault r.text "Bad request - invalid parameters")))
  else if r.status_code = 401 then
    .error (.typed (.authenticationError
      "Authentication failed. Check your NOBL9_API_TOKEN and NOBL9_ORG."))
  else if r.status_code = 404 then
    .error (.typed (.notFoundError "Resource not found"))
  else if r.status_code = 429 then
    .error (.typed (.rateLimitError "Rate limit exceeded. Please retry later."))
  else if r.status_code = 500 then
    .error (.typed (.apiError ("Server error: " ++ r.text)))
  else if r.status_code = 502 ∨ r.status_code = 503 then
    .error (.typed (.transientAPIError
      ("Transient API error (HTTP " ++ toString r.status_code ++ "): "
        ++ orDefault r.text "Service temporarily unavailable")))
  else
    .error (.typed (.apiError
      ("Unexpected error (HTTP " ++ toString r.status_code ++ "): " ++ r.text)))

/-- The retry configuration carried by the client constructor. -/
structure RetryCfg : Type where
  max_retries : Nat
  initial_backoff : ℚ
  max_backoff : ℚ
  backoff_multiplier : ℚ
deriving DecidableEq

/-- The constructor defaults: `max_retries=3`, `initial_backoff=1.0`,
`max_backoff=32.0`, `backoff_multiplier=2.0`. -/
def defaultRetryCfg : RetryCfg := ⟨3, 1, 32, 2⟩

instance {α β : Type} [DecidableEq α] [DecidableEq β] : DecidableEq (Except α β) :=
  fun a b =>
    match a, b with
    | .ok x, .ok y =>
      if h : x = y then isTrue (by rw [h]) else isFalse (fun he => h (by cases he; rfl))
    | .ok _, .error _ => isFalse (fun he => nomatch he)
    | .error _, .ok _ => isFalse (fun he => nomatch he)
    | .error x, .error y =>
      if h : x = y then isTrue (by rw [h]) else isFalse (fun he => h (by cases he; rfl))

/-- Outcome of `_request_with_retry`: how many attempts were made, the sleep
durations performed between attempts (in order), and the final result. -/
structure RetryResult : Type where
  attempts : Nat
  sleeps : List ℚ
  outcome : Except Failure Payload
deriving DecidableEq

/-- The message built when the last attempt fails transiently:
`"Request failed after {max_retries + 1} attempts. Last error: {str(e)}"`. -/
def wrapMsg (rc : RetryCfg) (m : String) : String :=
  "Request failed after " ++ toString (rc.max_retries + 1)
    ++ " attempts. Last error: " ++ m

/-- The body of the loop `for attempt in range(max_retries + 1)` in
`_request_with_retry`, with `fuel` the number of loop iterations left
(initially `max_retries + 1`), `attempt` the current iteration index and
`backoff` the current backoff value.  A `TransientAPIError` classification
sleeps `min(backoff, max_backoff)` and retries with `backoff * multiplier`
unless `attempt >= max_retries`, in which case the wrapped transient error
is raised; every other classification (success, other typed error, or an
uncaught Python error) ends the loop at once.  The `fuel = 0` case is the
code after the loop (`raise APIError("Request failed with unknown error")`),
unreachable from `requestWithRetry`. -/
def retryFrom (rc : RetryCfg) (resp : Nat → Response) :
    Nat → Nat → ℚ → RetryResult
  | 0, _, _ => ⟨0, [], .error (.typed (.apiError "Request failed with unknown error"))⟩
  | fuel + 1, attempt, backoff =>
    match handle_response (resp attempt) with
    | .ok p => ⟨1, [], .ok p⟩
    | .error (.typed (.transientAPIError m)) =>
      if rc.max_retries ≤ attempt then
        ⟨1, [], .error (.typed (.transientAPIError (wrapMsg rc m)))⟩
      else
        let rest := retryFrom rc resp fuel (attempt + 1) (backoff * rc.backoff_multiplier)
        ⟨rest.attempts + 1, min backoff rc.max_backoff :: rest.sleeps, rest.outcome⟩
    | .error f => ⟨1, [], .error f⟩

/-- `StatusPageClient._request_with_retry`. -/
def requestWithRetry (rc : RetryCfg) (resp : Nat → Response) : RetryResult :=
  retryFrom rc resp (rc.max_retries + 1) 0 rc.initial_backoff

/-- A response is transient when its status code is 502 or 503. -/
def transientStatus (r : Response) : Prop :=
  r.status_code = 502 ∨ r.status_code = 503

instance (r : Response) : Decidable (transientStatus r) := by
  unfold transientStatus; infer_instance

/-- The message `_handle_response` builds for a transient response. -/
def transientMsg (r : Response) : String :=
  "Transient API error (HTTP " ++ toString r.status_code ++ "): "
    ++ orDefault r.text "Service temporarily unavailable"

/-- The configuration object of `config.py`: environment-derived fields, each
possibly absent (`os.getenv` returns `None` when unset). `organization` and
`base_url` always have a value after validation / defaulting. -/
structure Config : Type where
  organization : String
  base_url : String
  api_token : Option String
  client_id : Option String
  client_secret : Option String
deriving DecidableEq

/-- Python dictionary assignment `headers[k] = v` on an association list:
replace the value when the key is present, append otherwise. -/
def setHeader (hs : List (String × String)) (k v : String) : List (String × String) :=
  if hs.any (fun q => q.1 == k) then
    hs.map (fun q => if q.1 == k then (k, v) else q)
  else hs ++ [(k, v)]

/-- The standard base64 alphabet. -/
def base64Chars : List Char :=
  "ABCDEFGHIJKLMNOPQRSTUVWXYZabcdefghijklmnopqrstuvwxyz0123456789+/".toList

/-- The base64 digit for a 6-bit value. -/
def b64digit (n : Nat) : Char := base64Chars.getD n 'A'

/-- RFC 4648 base64 of a byte list, with padding. -/
def b64encodeBytes : List Nat → String
  | [] => ""
  | [a] =>
    String.mk [b64digit (a / 4), b64digit (a % 4 * 16)] ++ "=="
  | [a, b] =>
    String.mk [b64digit (a / 4), b64digit (a % 4 * 16 + b / 16),
      b64digit (b % 16 * 4)] ++ "="
  | a :: b :: c :: rest =>
    String.mk [b64digit (a / 4), b64digit (a % 4 * 16 + b / 16),
      b64digit (b % 16 * 4 + c / 64), b64digit (c % 64)] ++ b64encodeBytes rest

/-- `base64.b64encode(s.encode()).decode()`: base64 of the UTF-8 bytes. -/
def b64encode (s : String) : String :=
  b64encodeBytes (s.toUTF8.toList.map (fun b => b.toNat))

/-- The mutable state of a `StatusPageClient` instance: the cached access
token and the session's default headers. -/
structure ClientState : Type where
  access_token : Option String
  session_headers : List (String × String)
deriving DecidableEq

/-- `StatusPageClient.__init__` (state part): set the common headers, and if
the config carries a (truthy) pre-generated `api_token`, cache it and install
the `Authorization: Bearer` header at once. -/
def initClient (cfg : Config) : ClientState :=
  let hs := [("organization", cfg.organization), ("Content-Type", "application/json")]
  if truthy cfg.api_token then
    ⟨cfg.api_token, setHeader hs "Authorization" ("Bearer " ++ cfg.api_token.getD "")⟩
  else ⟨none, hs⟩

/-- Result of `_get_access_token` / `_ensure_authenticated`: the returned (or
raised) value, the client state afterwards, and how many network requests to
`{base_url}/api/accessToken` were made. -/
structure TokenStep : Type where
  result : Except Failure String
  state : ClientState
  tokenCalls : Nat
deriving DecidableEq

/-- `StatusPageClient._get_access_token`, with `tokenResp` the response the
token endpoint would return to the single `requests.post` the code can make.
A cached (truthy) token is returned with no network call; absent credentials
raise before any network call; on 200 the `access_token` field is extracted
(`KeyError` when missing, `JSONDecodeError` when the body is not JSON),
cached and installed as the session's `Authorization: Bearer` header. -/
def get_access_token (cfg : Config) (tokenResp : Response) (st : ClientState) :
    TokenStep :=
  if truthy st.access_token then
    ⟨.ok (st.access_token.getD ""), st, 0⟩
  else if ¬ (truthy cfg.client_id = true ∧ truthy cfg.client_secret = true) then
    ⟨.error (.typed (.authenticationError
      "Client credentials not configured. Set NOBL9_CLIENT_ID and NOBL9_CLIENT_SECRET.")),
      st, 0⟩
  else if tokenResp.status_code = 200 then
    match tokenResp.json with
    | none => ⟨.error (.pythonError "JSONDecodeError"), st, 1⟩
    | some p =>
      match p.lookup "access_token" with
      | none => ⟨.error (.pythonError "KeyError"), st, 1⟩
      | some t =>
        ⟨.ok t, ⟨some t, setHeader st.session_headers "Authorization" ("Bearer " ++ t)⟩, 1⟩
  else if tokenResp.status_code = 401 then
    ⟨.error (.typed (.authenticationError
      "Failed to authenticate. Check your NOBL9_CLIENT_ID, NOBL9_CLIENT_SECRET, and NOBL9_ORG.")),
      st, 1⟩
  else
    ⟨.error (.typed (.authenticationError
      ("Token generation failed (HTTP " ++ toString tokenResp.status_code ++ "): "
        ++ tokenResp.text))), st, 1⟩

/-- `StatusPageClient._ensure_authenticated`: fetch a token only when none is
cached (Python truthiness). -/
def ensure_authenticated (cfg : Config) (tokenResp : Response) (st : ClientState) :
    TokenStep :=
  if truthy st.access_token then ⟨.ok (st.access_token.getD ""), st, 0⟩
  else get_access_token cfg tokenResp st

/-- Result of a `get` / `post` / `put` call: the outcome, the client state
afterwards, the number of requests made to the token endpoint, and the
resource URL that was targeted. -/
structure CallResult : Type where
  outcome : Except Failure Payload
  state : ClientState
  tokenCalls : Nat
  url : String
deriving DecidableEq

/-- `StatusPageClient.get`: ensure authenticated, build the URL, delegate to
the retry wrapper.  `resp` is the sequence of responses the resource endpoint
returns across the retry loop's calls. -/
def get (cfg : Config) (rc : RetryCfg) (tokenResp : Response) (path : String)
    (resp : Nat → Response) (st : ClientState) : CallResult :=
  let url := cfg.base_url ++ "/api/dashboards/v1" ++ path
  let auth := ensure_authenticated cfg tokenResp st
  match auth.result with
  | .error f => ⟨.error f, auth.state, auth.tokenCalls, url⟩
  | .ok _ => ⟨(requestWithRetry rc resp).outcome, auth.state, auth.tokenCalls, url⟩

/-- `StatusPageClient.post`: identical control flow to `get` (the HTTP verb
lives inside the abstracted request function). -/
def post (cfg : Config) (rc : RetryCfg) (tokenResp : Response) (path : String)
    (resp : Nat → Response) (st : ClientState) : CallResult :=
  let url := cfg.base_url ++ "/api/dashboards/v1" ++ path
  let auth := ensure_authenticated cfg tokenResp st
  match auth.result with
  | .error f => ⟨.error f, auth.state, auth.tokenCalls, url⟩
  | .ok _ => ⟨(requestWithRetry rc resp).outcome, auth.state, auth.tokenCalls, url⟩

/-- `StatusPageClient.put`: identical control flow to `get`. -/
def put (cfg : Config) (rc : RetryCfg) (tokenResp : Response) (path : String)
    (resp : Nat → Response) (st : ClientState) : CallResult :=
  let url := cfg.base_url ++ "/api/dashboards/v1" ++ path
  let auth := ensure_authenticated cfg tokenResp st
  match auth.result with
  | .error f => ⟨.error f, auth.state, auth.tokenCalls, url⟩
  | .ok _ => ⟨(requestWithRetry rc resp).outcome, auth.state, auth.tokenCalls, url⟩

/-- Result of `post_external`: outcome, the per-request header set that was
sent (`none` when the call failed before any network request), the client
state afterwards, and the number of attempts made. -/
structure ExtResult : Type where
  outcome : Except Failure Payload
  sent_headers : Option (List (String × String))
  state : ClientState
  attempts : Nat
  url : String
deriving DecidableEq

/-- `StatusPageClient.post_external`: require (truthy) client credentials
before any network call; build Basic-auth headers fresh from
`client_id:client_secret` in a local header set (the session and its cached
bearer token are not used), then delegate to the retry wrapper. -/
def post_external (cfg : Config) (rc : RetryCfg) (path : String)
    (resp : Nat → Response) (st : ClientState) : ExtResult :=
  let url := cfg.base_url ++ "/api/dashboards/v1" ++ path
  if ¬ (truthy cfg.client_id = true ∧ truthy cfg.client_secret = true) then
    ⟨.error (.typed (.authenticationError
      ("Client credentials required for external endpoint. "
        ++ "Set NOBL9_CLIENT_ID and NOBL9_CLIENT_SECRET."))), none, st, 0, url⟩
  else
    let credentials := cfg.client_id.getD "" ++ ":" ++ cfg.client_secret.getD ""
    let encoded := b64encode credentials
    let headers := [("organization", cfg.organization),
      ("Authorization", "Basic " ++ encoded),
      ("Content-Type", "application/json")]
    let r := requestWithRetry rc resp
    ⟨r.outcome, some headers, st, r.attempts, url⟩

/-- The sleep-duration sequence produced by `n` consecutive backoff sleeps
starting from backoff value `b`: each sleep is `min(b, max_backoff)` and the
backoff is multiplied by `backoff_multiplier` after each sleep. -/
def backoffSleeps (rc : RetryCfg) : ℚ → Nat → List ℚ
  | _, 0 => []
  | b, n + 1 => min b rc.max_backoff :: backoffSleeps rc (b * rc.backoff_multiplier) n

/-- `true` exactly when classification produced a payload. -/
def isOkPayload : Except Failure Payload → Bool
  | .ok _ => true
  | .error _ => false

/-- `true` when a result is a success or a failure inside the typed
taxonomy — i.e. anything except an escaping Python exception. -/
def typedOrOk {α : Type} : Except Failure α → Bool
  | .ok _ => true
  | .error (.typed _) => true
  | .error (.pythonError _) => false

/-- The responses on which `_handle_response` never needs to decode an
invalid JSON body: a 201 body, and a non-empty 200 body, must be valid
JSON. -/
def decodableResp (r : Response) : Prop :=
  (r.status_code = 201 → r.json ≠ none)
    ∧ (r.status_code = 200 → r.text ≠ "" → r.json ≠ none)

/-- A token-endpoint response on which `_get_access_token` never raises
outside the typed taxonomy: a 200 body must be valid JSON and carry the
`access_token` field. -/
def tokenRespWellFormed (r : Response) : Prop :=
  r.status_code = 200 → ∃ p, r.json = some p ∧ p.lookup "access_token" ≠ none

/-- One logical client operation, for reasoning about sequences of calls. -/
inductive Op : Type
  | get (path : String) (resp : Nat → Response)
  | post (path : String) (resp : Nat → Response)
  | put (path : String) (resp : Nat → Response)

/-- Run a sequence of `get`/`post`/`put` calls, threading the client state
and accumulating the total number of token-endpoint requests. -/
def runOps (cfg : Config) (rc : RetryCfg) (tokenResp : Response) :
    List Op → ClientState → ClientState × Nat
  | [], st => (st, 0)
  | op :: ops, st =>
    let r := match op with
      | .get path resp => get cfg rc tokenResp path resp st
      | .post path resp => post cfg rc tokenResp path resp st
      | .put path resp => put cfg rc tokenResp path resp st
    let tail := runOps cfg rc tokenResp ops r.state
    (tail.1, r.tokenCalls + tail.2)

/-! Concrete fixtures used by witnesses, counterexamples and the worked
examples of the spec. -/

/-- A server that answers 503 with an empty body forever. -/
def resp503const : Nat → Response := fun _ => ⟨503, "", none⟩

/-- A server that answers 503 once, then succeeds with an empty 200. -/
def respOne503 : Nat → Response := fun n =>
  if n = 0 then ⟨503, "gateway error", none⟩ else ⟨200, "", none⟩

/-- A server that always answers 404. -/
def resp404const : Nat → Response := fun _ => ⟨404, "", none⟩

/-- A server that always answers 201 with an empty (hence undecodable) body. -/
def resp201empty : Nat → Response := fun _ => ⟨201, "", none⟩

/-- A single 201 response with an empty body. -/
def oneResp201empty : Response := ⟨201, "", none⟩

/-- A server that always succeeds with a decodable 200. -/
def resp200ok : Nat → Response := fun _ => ⟨200, "{}", some []⟩

/-- A retry configuration whose multiplier shrinks the backoff. -/
def rcShrink : RetryCfg := ⟨3, 4, 32, 1/2⟩

/-- A config carrying client credentials and no pre-generated token. -/
def cfgCreds : Config :=
  ⟨"myorg", "https://app.nobl9.com", none, some "myid", some "mysecret"⟩

/-- A config carrying a pre-generated token and no client credentials. -/
def cfgToken : Config := ⟨"myorg", "https://app.nobl9.com", some "tok", none, none⟩

/-- A config with no credentials at all. -/
def cfgNoCreds : Config := ⟨"myorg", "https://app.nobl9.com", none, none, none⟩

/-- A successful token-endpoint response. -/
def tokenResp200 : Response :=
  ⟨200, "\x7b\"access_token\": \"newtok\"\x7d", some [("access_token", "newtok")]⟩

/-- A 401 token-endpoint response. -/
def tokenResp401 : Response := ⟨401, "", none⟩

/-- A 500 token-endpoint response. -/
def tokenResp500 : Response := ⟨500, "boom", none⟩

/-- A client state with no cached token and the common headers only. -/
def stFresh : ClientState :=
  ⟨none, [("organization", "myorg"), ("Content-Type", "application/json")]⟩

/-! ### Classification and retry-step lemmas -/

lemma handle_response_transient (r : Response) (h : transientStatus r) :
    handle_response r = .error (.typed (.transientAPIError (transientMsg r))) := by
  rcases h with h | h <;> simp [handle_response, transientMsg, h]

/-- Any response whose status is neither 502 nor 503 classifies to a payload,
a JSON decode failure, or a typed non-transient error. -/
lemma handle_response_classify (r : Response) (h502 : r.status_code ≠ 502)
    (h503 : r.status_code ≠ 503) :
    (∃ p, handle_response r = .ok p)
    ∨ handle_response r = .error (.pythonError "JSONDecodeError")
    ∨ (∃ e, handle_response r = .error (.typed e) ∧ ∀ m, e ≠ .transientAPIError m) := by
  by_cases h200 : r.status_code = 200
  · by_cases ht : r.text = ""
    · exact Or.inl ⟨[], by simp [handle_response, h200, ht]⟩
    · cases hj : r.json with
      | some p => exact Or.inl ⟨p, by simp [handle_response, h200, ht, hj]⟩
      | none => exact Or.inr (Or.inl (by simp [handle_response, h200, ht, hj]))
  by_cases h201 : r.status_code = 201
  · cases hj : r.json with
    | some p => exact Or.inl ⟨p, by simp [handle_response, h200, h201, hj]⟩
    | none => exact Or.inr (Or.inl (by simp [handle_response, h200, h201, hj]))
  by_cases h400 : r.status_code = 400
  · exact Or.inr (Or.inr
      ⟨.validationError ("Validation error: " ++ orDefault r.text "Bad request - invalid parameters"),
        by simp [handle_response, h200, h201, h400], fun m hm => nomatch hm⟩)
  by_cases h401 : r.status_code = 401
  · exact Or.inr (Or.inr
      ⟨.authenticationError "Authentication failed. Check your NOBL9_API_TOKEN and NOBL9_ORG.",
        by simp [handle_response, h200, h201, h400, h401], fun m hm => nomatch hm⟩)
  by_cases h404 : r.status_code = 404
  · exact Or.inr (Or.inr ⟨.notFoundError "Resource not found",
      by simp [handle_response, h200, h201, h400, h401, h404], fun m hm => nomatch hm⟩)
  by_cases h429 : r.status_code = 429
  · exact Or.inr (Or.inr ⟨.rateLimitError "Rate limit exceeded. Please retry later.",
      by simp [handle_response, h200, h201, h400, h401, h404, h429], fun m hm => nomatch hm⟩)
  by_cases h500 : r.status_code = 500
  · exact Or.inr (Or.inr ⟨.apiError ("Server error: " ++ r.text),
      by simp [handle_response, h200, h201, h400, h401, h404, h429, h500],
      fun m hm => nomatch hm⟩)
  · exact Or.inr (Or.inr
      ⟨.apiError ("Unexpected error (HTTP " ++ toString r.status_code ++ "): " ++ r.text),
        by simp [handle_response, h200, h201, h400, h401, h404, h429, h500, h502, h503],
        fun m hm => nomatch hm⟩)

lemma handle_response_not_transient (r : Response) (h : ¬ transientStatus r) (m : String) :
    handle_response r ≠ .error (.typed (.transientAPIError m)) := by
  have h502 : r.status_code ≠ 502 := fun hc => h (Or.inl hc)
  have h503 : r.status_code ≠ 503 := fun hc => h (Or.inr hc)
  rcases handle_response_classify r h502 h503 with ⟨p, hp⟩ | hp | ⟨e, he, hne⟩
  · rw [hp]; simp
  · rw [hp]; simp
  · rw [he]; simp; exact hne m

lemma retryFrom_succ_ok (rc : RetryCfg) (resp : Nat → Response) (n attempt : Nat)
    (backoff : ℚ) (p : Payload) (h : handle_response (resp attempt) = .ok p) :
    retryFrom rc resp (n + 1) attempt backoff = ⟨1, [], .ok p⟩ := by
  simp only [retryFrom, h]

lemma retryFrom_succ_transient (rc : RetryCfg) (resp : Nat → Response) (n attempt : Nat)
    (backoff : ℚ) (m : String)
    (h : handle_response (resp attempt) = .error (.typed (.transientAPIError m))) :
    retryFrom rc resp (n + 1) attempt backoff =
      if rc.max_retries ≤ attempt then
        ⟨1, [], .error (.typed (.transientAPIError (wrapMsg rc m)))⟩
      else
        let rest := retryFrom rc resp n (attempt + 1) (backoff * rc.backoff_multiplier)
        ⟨rest.attempts + 1, min backoff rc.max_backoff :: rest.sleeps, rest.outcome⟩ := by
  simp only [retryFrom, h]

lemma retryFrom_succ_error (rc : RetryCfg) (resp : Nat → Response) (n attempt : Nat)
    (backoff : ℚ) (f : Failure)
    (h : handle_response (resp attempt) = .error f)
    (hnt : ∀ m, f ≠ .typed (.transientAPIError m)) :
    retryFrom rc resp (n + 1) attempt backoff = ⟨1, [], .error f⟩ := by
  rcases f with e | k
  · cases e with
    | transientAPIError m => exact absurd rfl (hnt m)
    | validationError m => simp only [retryFrom, h]
    | authenticationError m => simp only [retryFrom, h]
    | notFoundError m => simp only [retryFrom, h]
    | rateLimitError m => simp only [retryFrom, h]
    | apiError m => simp only [retryFrom, h]
  · simp only [retryFrom, h]

/-! ### Backoff-sequence and retry-loop characterizations -/

lemma backoffSleeps_eq_map (rc : RetryCfg) :
    ∀ (n : Nat) (b : ℚ), backoffSleeps rc b n =
      (List.range n).map (fun i => min (b * rc.backoff_multiplier ^ i) rc.max_backoff) := by
  intro n
  induction n with
  | zero => intro b; simp [backoffSleeps]
  | succ n ih =>
    intro b
    rw [List.range_succ_eq_map]
    simp only [backoffSleeps, List.map_cons, List.map_map]
    rw [pow_zero, mul_one, ih (b * rc.backoff_multiplier)]
    have hfun : (fun i => b * rc.backoff_multiplier * rc.backoff_multiplier ^ i ⊓ rc.max_backoff)
        = ((fun i => b * rc.backoff_multiplier ^ i ⊓ rc.max_backoff) ∘ Nat.succ) := by
      funext i
      simp only [Function.comp]
      congr 1
      rw [pow_succ]
      ring
    rw [hfun]

lemma backoffSleeps_le (rc : RetryCfg) :
    ∀ (n : Nat) (b : ℚ), ∀ s ∈ backoffSleeps rc b n, s ≤ rc.max_backoff := by
  intro n
  induction n with
  | zero => intro b s hs; simp [backoffSleeps] at hs
  | succ n ih =>
    intro b s hs
    simp only [backoffSleeps, List.mem_cons] at hs
    rcases hs with rfl | hs
    · exact min_le_right _ _
    · exact ih _ s hs

lemma backoffSleeps_chain (rc : RetryCfg) (hm : 1 ≤ rc.backoff_multiplier) :
    ∀ (n : Nat) (b : ℚ), 0 ≤ b → List.Chain' (· ≤ ·) (backoffSleeps rc b n) := by
  intro n
  induction n with
  | zero => intro b hb; simp [backoffSleeps]
  | succ n ih =>
    intro b hb
    have hb2 : (0 : ℚ) ≤ b * rc.backoff_multiplier :=
      mul_nonneg hb (le_trans zero_le_one hm)
    cases n with
    | zero => simp [backoffSleeps]
    | succ k =>
      have hstep : min b rc.max_backoff ≤ min (b * rc.backoff_multiplier) rc.max_backoff :=
        min_le_min (le_mul_of_one_le_right hb hm) le_rfl
      have ihtail := ih (b * rc.backoff_multiplier) hb2
      simp only [backoffSleeps] at ihtail ⊢
      exact List.Chain'.cons hstep ihtail

/-- When every response from `attempt` through index `max_retries` is
transient, the loop exhausts its budget: one attempt per remaining
iteration, a sleep before each retry, and the wrapped transient error at
the end. -/
lemma retryFrom_all_transient (rc : RetryCfg) (resp : Nat → Response) :
    ∀ (fuel attempt : Nat) (backoff : ℚ), 1 ≤ fuel →
      fuel + attempt = rc.max_retries + 1 →
      (∀ i, attempt ≤ i → i ≤ rc.max_retries → transientStatus (resp i)) →
      retryFrom rc resp fuel attempt backoff =
        ⟨fuel, backoffSleeps rc backoff (fuel - 1),
          .error (.typed (.transientAPIError
            (wrapMsg rc (transientMsg (resp rc.max_retries)))))⟩ := by
  intro fuel
  induction fuel with
  | zero => intro attempt backoff hf; exact absurd hf (by decide)
  | succ n ih =>
    intro attempt backoff hf hsum htr
    have htr0 : transientStatus (resp attempt) := htr attempt le_rfl (by omega)
    rw [retryFrom_succ_transient rc resp n attempt backoff _
      (handle_response_transient _ htr0)]
    cases n with
    | zero =>
      have ha : attempt = rc.max_retries := by omega
      rw [if_pos (by omega)]
      rw [ha]
      simp [backoffSleeps]
    | succ k =>
      have hlast : ¬ rc.max_retries ≤ attempt := by omega
      rw [if_neg hlast]
      rw [ih (attempt + 1) (backoff * rc.backoff_multiplier) (by omega) (by omega)
        (fun i hi1 hi2 => htr i (by omega) hi2)]
      dsimp only
      simp [backoffSleeps]

/-- When the `j` responses from `attempt` on are transient and the next one
is not, the loop makes `j` sleeping attempts and finishes with the
classification of that next response. -/
lemma retryFrom_transient_run (rc : RetryCfg) (resp : Nat → Response) :
    ∀ (j fuel attempt : Nat) (backoff : ℚ), j < fuel →
      fuel + attempt = rc.max_retries + 1 →
      (∀ i, attempt ≤ i → i < attempt + j → transientStatus (resp i)) →
      ¬ transientStatus (resp (attempt + j)) →
      retryFrom rc resp fuel attempt backoff =
        ⟨j + 1, backoffSleeps rc backoff j, handle_response (resp (attempt + j))⟩ := by
  intro j
  induction j with
  | zero =>
    intro fuel attempt backoff hj hsum htr hnt
    cases fuel with
    | zero => exact absurd hj (by omega)
    | succ n =>
      cases hcl : handle_response (resp attempt) with
      | ok p =>
        rw [retryFrom_succ_ok rc resp n attempt backoff p hcl]
        simp [backoffSleeps, hcl]
      | error f =>
        have hnt' : ∀ m, f ≠ .typed (.transientAPIError m) := by
          intro m hm
          exact handle_response_not_transient (resp attempt) (by simpa using hnt) m
            (by rw [← hm]; exact hcl)
        rw [retryFrom_succ_error rc resp n attempt backoff f hcl hnt']
        simp [backoffSleeps, hcl]
  | succ k ih =>
    intro fuel attempt backoff hj hsum htr hnt
    cases fuel with
    | zero => exact absurd hj (by omega)
    | succ n =>
      have htr0 : transientStatus (resp attempt) := htr attempt le_rfl (by omega)
      rw [retryFrom_succ_transient rc resp n attempt backoff _
        (handle_response_transient _ htr0)]
      have hlast : ¬ rc.max_retries ≤ attempt := by omega
      rw [if_neg hlast]
      have hidx : attempt + 1 + k = attempt + (k + 1) := by omega
      rw [ih n (attempt + 1) (backoff * rc.backoff_multiplier) (by omega) (by omega)
        (fun i hi1 hi2 => htr i (by omega) (by omega))
        (by rw [hidx]; exact hnt)]
      dsimp only
      rw [hidx]
      simp [backoffSleeps]

/-- Top-level form of `retryFrom_all_transient`. -/
lemma requestWithRetry_all_transient (rc : RetryCfg) (resp : Nat → Response)
    (htr : ∀ i, i ≤ rc.max_retries → transientStatus (resp i)) :
    requestWithRetry rc resp =
      ⟨rc.max_retries + 1, backoffSleeps rc rc.initial_backoff rc.max_retries,
        .error (.typed (.transientAPIError
          (wrapMsg rc (transientMsg (resp rc.max_retries)))))⟩ := by
  unfold requestWithRetry
  rw [retryFrom_all_transient rc resp (rc.max_retries + 1) 0 rc.initial_backoff
    (by omega) (by omega) (fun i hi1 hi2 => htr i hi2)]
  simp

/-- Top-level form of `retryFrom_transient_run`. -/
lemma requestWithRetry_transient_run (rc : RetryCfg) (resp : Nat → Response)
    (k : Nat) (hk : k ≤ rc.max_retries)
    (htr : ∀ i, i < k → transientStatus (resp i))
    (hnt : ¬ transientStatus (resp k)) :
    requestWithRetry rc resp =
      ⟨k + 1, backoffSleeps rc rc.initial_backoff k, handle_response (resp k)⟩ := by
  unfold requestWithRetry
  have h := retryFrom_transient_run rc resp k (rc.max_retries + 1) 0 rc.initial_backoff
    (by omega) (by omega) (fun i hi1 hi2 => htr i (by omega)) (by simpa using hnt)
  simpa using h

/-! ### Claims C1 and C2 -/

/-- The worked example of the spec: defaults and four consecutive 503s give
four attempts, sleeps 1.0, 2.0, 4.0, and the wrapped transient error. -/
lemma retryDefaultsExample :
    requestWithRetry defaultRetryCfg resp503const =
      ⟨4, [1, 2, 4], .error (.typed (.transientAPIError
        "Request failed after 4 attempts. Last error: Transient API error (HTTP 503): Service temporarily unavailable"))⟩ := by
  rw [requestWithRetry_all_transient defaultRetryCfg resp503const (fun i hi => Or.inr rfl)]
  simp only [RetryResult.mk.injEq]
  refine ⟨by decide, ?_, by decide⟩
  norm_num [backoffSleeps, defaultRetryCfg]

/-- Any response with a status other than 200, 201, 502, 503 classifies to a
typed, non-transient error. -/
lemma handle_response_error_status (r : Response) (h200 : r.status_code ≠ 200)
    (h201 : r.status_code ≠ 201) (h502 : r.status_code ≠ 502)
    (h503 : r.status_code ≠ 503) :
    ∃ e, handle_response r = .error (.typed e) ∧ ∀ m, e ≠ .transientAPIError m := by
  by_cases h400 : r.status_code = 400
  · exact ⟨.validationError ("Validation error: "
      ++ orDefault r.text "Bad request - invalid parameters"),
      by simp [handle_response, h200, h201, h400], fun m hm => nomatch hm⟩
  by_cases h401 : r.status_code = 401
  · exact ⟨.authenticationError
      "Authentication failed. Check your NOBL9_API_TOKEN and NOBL9_ORG.",
      by simp [handle_response, h200, h201, h400, h401], fun m hm => nomatch hm⟩
  by_cases h404 : r.status_code = 404
  · exact ⟨.notFoundError "Resource not found",
      by simp [handle_response, h200, h201, h400, h401, h404], fun m hm => nomatch hm⟩
  by_cases h429 : r.status_code = 429
  · exact ⟨.rateLimitError "Rate limit exceeded. Please retry later.",
      by simp [handle_response, h200, h201, h400, h401, h404, h429],
      fun m hm => nomatch hm⟩
  by_cases h500 : r.status_code = 500
  · exact ⟨.apiError ("Server error: " ++ r.text),
      by simp [handle_response, h200, h201, h400, h401, h404, h429, h500],
      fun m hm => nomatch hm⟩
  · exact ⟨.apiError ("Unexpected error (HTTP " ++ toString r.status_code ++ "): " ++ r.text),
      by simp [handle_response, h200, h201, h400, h401, h404, h429, h500, h502, h503],
      fun m hm => nomatch hm⟩

/-- C1 (amended): with `k` consecutive transient responses followed, if the
budget allows a further attempt, by a non-transient one,
`_request_with_retry` makes exactly `min(k+1, max_retries+1)` attempts;
before each retry it sleeps `min(currentBackoff, max_backoff)` with
`currentBackoff` starting at `initial_backoff` and multiplied by
`backoff_multiplier` after each sleep; the sleeps are non-decreasing when
`backoff_multiplier ≥ 1` and `initial_backoff ≥ 0`, and always capped at
`max_backoff`; with the default configuration and four consecutive 503
responses the sleeps are 1.0, 2.0, 4.0 and the fourth attempt raises
`TransientAPIError` wrapping the attempt count and last error message. -/
theorem C1_retry_backoff_amended (rc : RetryCfg) (resp : Nat → Response) (k : Nat)
    (htr : ∀ i, i < k → transientStatus (resp i))
    (hnt : k ≤ rc.max_retries → ¬ transientStatus (resp k)) :
    (requestWithRetry rc resp).attempts = min (k + 1) (rc.max_retries + 1)
    ∧ (requestWithRetry rc resp).sleeps =
        (List.range ((requestWithRetry rc resp).attempts - 1)).map
          (fun i => min (rc.initial_backoff * rc.backoff_multiplier ^ i) rc.max_backoff)
    ∧ (1 ≤ rc.backoff_multiplier → 0 ≤ rc.initial_backoff →
        List.Chain' LE.le (requestWithRetry rc resp).sleeps)
    ∧ (∀ s ∈ (requestWithRetry rc resp).sleeps, s ≤ rc.max_backoff)
    ∧ requestWithRetry defaultRetryCfg resp503const =
        ⟨4, [1, 2, 4], .error (.typed (.transientAPIError
          "Request failed after 4 attempts. Last error: Transient API error (HTTP 503): Service temporarily unavailable"))⟩ := by
  by_cases hk : k ≤ rc.max_retries
  · have hrw := requestWithRetry_transient_run rc resp k hk htr (hnt hk)
    rw [hrw]
    refine ⟨by simp; omega, ?_, ?_, ?_, retryDefaultsExample⟩
    · simp [backoffSleeps_eq_map]
    · intro hm hb
      exact backoffSleeps_chain rc hm k rc.initial_backoff hb
    · exact backoffSleeps_le rc k rc.initial_backoff
  · have htr' : ∀ i, i ≤ rc.max_retries → transientStatus (resp i) :=
      fun i hi => htr i (by omega)
    have hrw := requestWithRetry_all_transient rc resp htr'
    rw [hrw]
    refine ⟨by simp; omega, ?_, ?_, ?_, retryDefaultsExample⟩
    · simp [backoffSleeps_eq_map]
    · intro hm hb
      exact backoffSleeps_chain rc hm rc.max_retries rc.initial_backoff hb
    · exact backoffSleeps_le rc rc.max_retries rc.initial_backoff

/-- C1 witness: the amended theorem applied to the default configuration and
four consecutive 503 responses. -/
theorem C1_retry_backoff_amended_witness :
    (requestWithRetry defaultRetryCfg resp503const).attempts
      = min (4 + 1) (defaultRetryCfg.max_retries + 1) :=
  (C1_retry_backoff_amended defaultRetryCfg resp503const 4
    (fun i hi => Or.inr rfl) (fun h => absurd h (by decide))).1

/-- C1 counterexample: with the default configuration, one 503 followed by a
200 means `k = 1` consecutive transient responses, but two attempts are made,
not `min(k, max_retries+1) = 1`; and with a multiplier below 1 the sleeps
decrease, contradicting the unconditional non-decreasing claim. -/
theorem C1_counterexample :
    (requestWithRetry defaultRetryCfg respOne503).attempts = 2
    ∧ (requestWithRetry defaultRetryCfg respOne503).attempts
        ≠ min 1 (defaultRetryCfg.max_retries + 1)
    ∧ (requestWithRetry rcShrink resp503const).sleeps = [4, 2, 1]
    ∧ ¬ List.Chain' LE.le (requestWithRetry rcShrink resp503const).sleeps := by
  have hatt : (requestWithRetry defaultRetryCfg respOne503).attempts = 2 := by
    have h2 := requestWithRetry_transient_run defaultRetryCfg respOne503 1 (by decide)
      (fun i hi => by
        have h0 : i = 0 := by omega
        rw [h0]
        exact Or.inr rfl)
      (by decide)
    rw [h2]
  have hsl : (requestWithRetry rcShrink resp503const).sleeps = [4, 2, 1] := by
    rw [requestWithRetry_all_transient rcShrink resp503const (fun i hi => Or.inr rfl)]
    norm_num [backoffSleeps, rcShrink]
  refine ⟨hatt, by rw [hatt]; decide, hsl, ?_⟩
  rw [hsl]
  norm_num [List.chain'_cons]

/-- C2: a response whose classification is a non-transient error (any status
other than 200, 201, 502, 503) causes exactly one attempt, no sleep, and
propagation of that exact typed error. -/
theorem C2_nontransient_single_attempt (rc : RetryCfg) (resp : Nat → Response) :
    ((resp 0).status_code ≠ 200 → (resp 0).status_code ≠ 201 →
      (resp 0).status_code ≠ 502 → (resp 0).status_code ≠ 503 →
      ∃ e : ClientError, handle_response (resp 0) = .error (.typed e)
        ∧ (∀ m, e ≠ .transientAPIError m))
    ∧ (∀ e : ClientError, handle_response (resp 0) = .error (.typed e) →
        (∀ m, e ≠ .transientAPIError m) →
        requestWithRetry rc resp = ⟨1, [], .error (.typed e)⟩) := by
  constructor
  · intro h200 h201 h502 h503
    exact handle_response_error_status (resp 0) h200 h201 h502 h503
  · intro e he hnt
    unfold requestWithRetry
    exact retryFrom_succ_error rc resp rc.max_retries 0 rc.initial_backoff (.typed e) he
      (fun m hm => hnt m (Failure.typed.inj hm))

/-- C2 witness: a 404 response is propagated unchanged after one attempt with
no sleep. -/
theorem C2_nontransient_single_attempt_witness :
    requestWithRetry defaultRetryCfg resp404const =
      ⟨1, [], .error (.typed (.notFoundError "Resource not found"))⟩ :=
  (C2_nontransient_single_attempt defaultRetryCfg resp404const).2
    (.notFoundError "Resource not found") (by decide) (fun m hm => nomatch hm)

/-! ### Claims C3, C7 and C8 -/

/-- Statuses missing from the classification table hit the catch-all. -/
lemma handle_response_unexpected (r : Response)
    (h : r.status_code ∉ ([200, 201, 400, 401, 404, 429, 500, 502, 503] : List Nat)) :
    handle_response r = .error (.typed (.apiError
      ("Unexpected error (HTTP " ++ toString r.status_code ++ "): " ++ r.text))) := by
  simp only [List.mem_cons, List.not_mem_nil, or_false, not_or] at h
  obtain ⟨h200, h201, h400, h401, h404, h429, h500, h502, h503⟩ := h
  simp [handle_response, h200, h201, h400, h401, h404, h429, h500, h502, h503]

/-- Any status other than 200/201 classifies to a typed error. -/
lemma handle_response_error_of_not_success (r : Response)
    (h200 : r.status_code ≠ 200) (h201 : r.status_code ≠ 201) :
    ∃ e, handle_response r = .error (.typed e) := by
  by_cases h502 : r.status_code = 502
  · exact ⟨_, handle_response_transient r (Or.inl h502)⟩
  by_cases h503 : r.status_code = 503
  · exact ⟨_, handle_response_transient r (Or.inr h503)⟩
  obtain ⟨e, he, _⟩ := handle_response_error_status r h200 h201 h502 h503
  exact ⟨e, he⟩

/-- C3: `_handle_response` is a pure function of status code and body and
implements the classification table: 200 with empty body gives the empty
mapping, 200/201 return the decoded body, 400/401/404/429/500/502/503 raise
their respective errors with the exact messages, and any other status hits
the catch-all `APIError`. -/
theorem C3_handle_response_table (r : Response) :
    (∀ r' : Response, r.status_code = r'.status_code → r.text = r'.text →
        r.json = r'.json → handle_response r = handle_response r')
    ∧ (r.status_code = 200 → r.text = "" → handle_response r = .ok [])
    ∧ (r.status_code = 200 → r.text ≠ "" → ∀ p, r.json = some p →
        handle_response r = .ok p)
    ∧ (r.status_code = 201 → ∀ p, r.json = some p → handle_response r = .ok p)
    ∧ (r.status_code = 400 → handle_response r = .error (.typed (.validationError
        ("Validation error: " ++ orDefault r.text "Bad request - invalid parameters"))))
    ∧ (r.status_code = 401 → handle_response r = .error (.typed (.authenticationError
        "Authentication failed. Check your NOBL9_API_TOKEN and NOBL9_ORG.")))
    ∧ (r.status_code = 404 →
        handle_response r = .error (.typed (.notFoundError "Resource not found")))
    ∧ (r.status_code = 429 → handle_response r =
        .error (.typed (.rateLimitError "Rate limit exceeded. Please retry later.")))
    ∧ (r.status_code = 500 →
        handle_response r = .error (.typed (.apiError ("Server error: " ++ r.text))))
    ∧ (r.status_code = 502 ∨ r.status_code = 503 →
        handle_response r = .error (.typed (.transientAPIError
          ("Transient API error (HTTP " ++ toString r.status_code ++ "): "
            ++ orDefault r.text "Service temporarily unavailable"))))
    ∧ (r.status_code ∉ ([200, 201, 400, 401, 404, 429, 500, 502, 503] : List Nat) →
        handle_response r = .error (.typed (.apiError
          ("Unexpected error (HTTP " ++ toString r.status_code ++ "): " ++ r.text)))) := by
  refine ⟨?_, ?_, ?_, ?_, ?_, ?_, ?_, ?_, ?_, ?_, handle_response_unexpected r⟩
  · intro r' h1 h2 h3
    have hr : r = r' := by
      obtain ⟨s, t, j⟩ := r
      obtain ⟨s', t', j'⟩ := r'
      simp only [Response.mk.injEq]
      exact ⟨h1, h2, h3⟩
    rw [hr]
  · intro h ht; simp [handle_response, h, ht]
  · intro h ht p hj; simp [handle_response, h, ht, hj]
  · intro h p hj
    have h200 : r.status_code ≠ 200 := by rw [h]; decide
    simp [handle_response, h200, h, hj]
  · intro h; simp [handle_response, h]
  · intro h; simp [handle_response, h]
  · intro h; simp [handle_response, h]
  · intro h; simp [handle_response, h]
  · intro h; simp [handle_response, h]
  · intro h; rcases h with h | h <;> simp [handle_response, h]

/-- C3 witness: the table evaluated on a 404 response. -/
theorem C3_handle_response_table_witness :
    handle_response (resp404const 0) = .error (.typed (.notFoundError "Resource not found")) :=
  (C3_handle_response_table (resp404const 0)).2.2.2.2.2.2.1 rfl

/-- A decodable response classifies to a payload or a typed error, never to
an escaping Python error. -/
lemma handle_response_decodable (r : Response) (hd : decodableResp r) :
    (∃ p, handle_response r = .ok p) ∨ (∃ e, handle_response r = .error (.typed e)) := by
  by_cases h200 : r.status_code = 200
  · by_cases ht : r.text = ""
    · exact Or.inl ⟨[], by simp [handle_response, h200, ht]⟩
    · cases hj : r.json with
      | some p => exact Or.inl ⟨p, by simp [handle_response, h200, ht, hj]⟩
      | none => exact absurd hj (hd.2 h200 ht)
  by_cases h201 : r.status_code = 201
  · cases hj : r.json with
    | some p => exact Or.inl ⟨p, by simp [handle_response, h200, h201, hj]⟩
    | none => exact absurd hj (hd.1 h201)
  · exact Or.inr (handle_response_error_of_not_success r h200 h201)

/-- Over decodable responses, the retry loop's outcome is a payload or a
typed error from any starting point. -/
lemma retryFrom_outcome_typed (rc : RetryCfg) (resp : Nat → Response)
    (hd : ∀ i, decodableResp (resp i)) :
    ∀ (fuel attempt : Nat) (backoff : ℚ),
      (∃ p, (retryFrom rc resp fuel attempt backoff).outcome = .ok p)
      ∨ (∃ e, (retryFrom rc resp fuel attempt backoff).outcome = .error (.typed e)) := by
  intro fuel
  induction fuel with
  | zero => intro attempt backoff; exact Or.inr ⟨_, rfl⟩
  | succ n ih =>
    intro attempt backoff
    rcases handle_response_decodable (resp attempt) (hd attempt) with ⟨p, hp⟩ | ⟨e, he⟩
    · rw [retryFrom_succ_ok rc resp n attempt backoff p hp]
      exact Or.inl ⟨p, rfl⟩
    · by_cases htr : ∃ m, e = .transientAPIError m
      · obtain ⟨m, rfl⟩ := htr
        rw [retryFrom_succ_transient rc resp n attempt backoff m he]
        by_cases hlast : rc.max_retries ≤ attempt
        · rw [if_pos hlast]; exact Or.inr ⟨_, rfl⟩
        · rw [if_neg hlast]
          exact ih (attempt + 1) (backoff * rc.backoff_multiplier)
      · push_neg at htr
        rw [retryFrom_succ_error rc resp n attempt backoff (.typed e) he
          (fun m hm => htr m (Failure.typed.inj hm))]
        exact Or.inr ⟨e, rfl⟩

/-- Over a well-formed token-endpoint response, token acquisition returns a
token or a typed error. -/
lemma get_access_token_typed (cfg : Config) (tokenResp : Response)
    (st : ClientState) (hwf : tokenRespWellFormed tokenResp) :
    (∃ t, (get_access_token cfg tokenResp st).result = .ok t)
    ∨ (∃ e, (get_access_token cfg tokenResp st).result = .error (.typed e)) := by
  simp only [get_access_token]
  by_cases hc : truthy st.access_token = true
  · rw [if_pos hc]; exact Or.inl ⟨_, rfl⟩
  rw [if_neg hc]
  by_cases hcred : truthy cfg.client_id = true ∧ truthy cfg.client_secret = true
  · rw [if_neg (not_not_intro hcred)]
    by_cases h200 : tokenResp.status_code = 200
    · rw [if_pos h200]
      obtain ⟨p, hp, hf⟩ := hwf h200
      rw [hp]
      dsimp only
      cases hl : p.lookup "access_token" with
      | none => exact absurd hl hf
      | some t => exact Or.inl ⟨t, rfl⟩
    · rw [if_neg h200]
      by_cases h401 : tokenResp.status_code = 401
      · rw [if_pos h401]; exact Or.inr ⟨_, rfl⟩
      · rw [if_neg h401]; exact Or.inr ⟨_, rfl⟩
  · rw [if_pos hcred]
    exact Or.inr ⟨_, rfl⟩

/-- C7 (amended): over responses whose bodies decode where the code decodes
them (all 201 bodies and non-empty 200 bodies valid JSON; a 200 token
response carrying the `access_token` field), every failure of the retry
wrapper (hence of `get`/`post`/`put`/`post_external`) and of token
acquisition surfaces as a typed `APIError`; a 200/201 with an undecodable
body instead escapes as an untyped JSON decode error (see the
counterexample). -/
theorem C7_typed_failures_amended (rc : RetryCfg) (resp : Nat → Response)
    (hd : ∀ i, decodableResp (resp i)) (cfg : Config) (tokenResp : Response)
    (st : ClientState) (hwf : tokenRespWellFormed tokenResp) :
    ((∃ p, (requestWithRetry rc resp).outcome = .ok p)
      ∨ (∃ e, (requestWithRetry rc resp).outcome = .error (.typed e)))
    ∧ ((∃ t, (get_access_token cfg tokenResp st).result = .ok t)
      ∨ (∃ e, (get_access_token cfg tokenResp st).result = .error (.typed e))) :=
  ⟨retryFrom_outcome_typed rc resp hd (rc.max_retries + 1) 0 rc.initial_backoff,
    get_access_token_typed cfg tokenResp st hwf⟩

/-- C7 witness: the amended theorem at a decodable 200 run and a well-formed
token response. -/
theorem C7_typed_failures_amended_witness :
    typedOrOk (requestWithRetry defaultRetryCfg resp200ok).outcome = true
    ∧ typedOrOk (get_access_token cfgCreds tokenResp200 stFresh).result = true := by
  obtain ⟨h1, h2⟩ := C7_typed_failures_amended defaultRetryCfg resp200ok
    (fun i => ⟨by simp [resp200ok], fun ha hb => by simp [resp200ok]⟩)
    cfgCreds tokenResp200 stFresh
    (fun h => ⟨[("access_token", "newtok")], rfl, by decide⟩)
  constructor
  · rcases h1 with ⟨p, hp⟩ | ⟨e, he⟩
    · rw [hp]; rfl
    · rw [he]; rfl
  · rcases h2 with ⟨t, hp⟩ | ⟨e, he⟩
    · rw [hp]; rfl
    · rw [he]; rfl

/-- C7 counterexample: a 201 response with an empty body makes the retry
wrapper surface `json.JSONDecodeError`, which is outside the typed
taxonomy — the claim that no failure escapes untyped is false. -/
theorem C7_counterexample :
    (requestWithRetry defaultRetryCfg resp201empty).outcome
        = .error (.pythonError "JSONDecodeError")
    ∧ Failure.isTyped (.pythonError "JSONDecodeError") = false := by decide

/-- C8 (amended): classification returns a payload only for statuses 200 and
201, and does return one there when the body decodes; every other status —
204 and 302 included — raises a typed error, with codes outside the table
mapped to the catch-all `APIError`; a 200/201 whose body fails to decode
raises an untyped JSON decode error instead of returning a payload. -/
theorem C8_payload_iff_success_amended (r : Response) :
    (isOkPayload (handle_response r) = true → r.status_code = 200 ∨ r.status_code = 201)
    ∧ ((r.status_code = 200 ∨ r.status_code = 201) → decodableResp r →
        isOkPayload (handle_response r) = true)
    ∧ (r.status_code ≠ 200 → r.status_code ≠ 201 →
        ∃ e, handle_response r = .error (.typed e))
    ∧ (r.status_code ∉ ([200, 201, 400, 401, 404, 429, 500, 502, 503] : List Nat) →
        handle_response r = .error (.typed (.apiError
          ("Unexpected error (HTTP " ++ toString r.status_code ++ "): " ++ r.text)))) := by
  refine ⟨?_, ?_, handle_response_error_of_not_success r, handle_response_unexpected r⟩
  · intro hok
    by_contra h
    push_neg at h
    obtain ⟨e, he⟩ := handle_response_error_of_not_success r h.1 h.2
    rw [he] at hok
    simp [isOkPayload] at hok
  · intro hs hd
    rcases handle_response_decodable r hd with ⟨p, hp⟩ | ⟨e, he⟩
    · rw [hp]; rfl
    · exfalso
      rcases hs with h200 | h201
      · by_cases ht : r.text = ""
        · rw [show handle_response r = .ok [] from by simp [handle_response, h200, ht]] at he
          exact nomatch he
        · cases hj : r.json with
          | some p =>
            rw [show handle_response r = .ok p from by
              simp [handle_response, h200, ht, hj]] at he
            exact nomatch he
          | none => exact hd.2 h200 ht hj
      · cases hj : r.json with
        | some p =>
          have h200' : r.status_code ≠ 200 := by rw [h201]; decide
          rw [show handle_response r = .ok p from by
            simp [handle_response, h200', h201, hj]] at he
          exact nomatch he
        | none => exact hd.1 h201 hj

/-- C8 witness: a 204 No Content response hits the catch-all `APIError`. -/
theorem C8_payload_iff_success_amended_witness :
    handle_response ⟨204, "", none⟩ = .error (.typed (.apiError
      ("Unexpected error (HTTP " ++ toString (204 : Nat) ++ "): " ++ ""))) :=
  (C8_payload_iff_success_amended ⟨204, "", none⟩).2.2.2 (by decide)

/-- C8 counterexample: a 201 response with an empty body has success status
but classification does not return a payload, refuting the unrestricted
"if and only if". -/
theorem C8_counterexample :
    oneResp201empty.status_code = 201
    ∧ isOkPayload (handle_response oneResp201empty) = false := by decide

/-! ### Claims C4 and C5 -/

lemma truthy_some_iff (s : String) : truthy (some s) = true ↔ s ≠ "" := by
  simp only [truthy, Bool.not_eq_true']
  rw [Bool.eq_false_iff]
  constructor
  · exact fun h he => h ((String.isEmpty_iff _).2 he)
  · exact fun h hb => h ((String.isEmpty_iff _).1 hb)

lemma lookup_of_not_any : ∀ (hs : List (String × String)) (k : String),
    hs.any (fun q => q.1 == k) = false → hs.lookup k = none := by
  intro hs k
  induction hs with
  | nil => intro h; rfl
  | cons a tl ih =>
    intro h
    simp only [List.any_cons, Bool.or_eq_false_iff] at h
    have hk : (k == a.1) = false := by
      have h1 := h.1
      simp only [beq_eq_false_iff_ne] at h1 ⊢
      exact fun he => h1 he.symm
    simp only [List.lookup, hk]
    exact ih h.2

lemma lookup_map_set : ∀ (hs : List (String × String)) (k v : String),
    hs.any (fun q => q.1 == k) = true →
    (hs.map (fun q => if q.1 == k then (k, v) else q)).lookup k = some v := by
  intro hs k v
  induction hs with
  | nil => intro h; simp at h
  | cons a tl ih =>
    intro h
    by_cases ha : (a.1 == k) = true
    · rw [List.map_cons, if_pos ha]
      simp [List.lookup]
    · have htl : tl.any (fun q => q.1 == k) = true := by
        simp only [List.any_cons] at h
        rcases Bool.or_eq_true_iff.1 h with hc | hc
        · exact absurd hc ha
        · exact hc
      have hk : (k == a.1) = false := by
        simp only [Bool.not_eq_true, beq_eq_false_iff_ne] at ha ⊢
        exact fun he => ha he.symm
      rw [List.map_cons, if_neg ha]
      simp only [List.lookup, hk]
      exact ih htl

lemma lookup_append_right : ∀ (hs l : List (String × String)) (k : String),
    hs.lookup k = none → (hs ++ l).lookup k = l.lookup k := by
  intro hs
  induction hs with
  | nil => intro l k h; rfl
  | cons a tl ih =>
    intro l k h
    by_cases hk : (k == a.1) = true
    · simp only [List.lookup, hk] at h
      exact absurd h (by simp)
    · have hk2 : (k == a.1) = false := Bool.eq_false_iff.2 hk
      simp only [List.lookup, hk2] at h
      simp only [List.cons_append, List.lookup, hk2]
      exact ih l k h

/-- Dictionary assignment makes the assigned value visible under its key. -/
lemma lookup_setHeader (hs : List (String × String)) (k v : String) :
    (setHeader hs k v).lookup k = some v := by
  unfold setHeader
  by_cases h : hs.any (fun q => q.1 == k) = true
  · rw [if_pos h]
    exact lookup_map_set hs k v h
  · rw [if_neg h]
    rw [lookup_append_right hs [(k, v)] k
      (lookup_of_not_any hs k (Bool.eq_false_iff.2 h))]
    simp [List.lookup]

/-- Cache hit: a cached non-empty token is returned with no network call and
no state change. -/
lemma get_access_token_cached (cfg : Config) (tr : Response) (st : ClientState)
    (t : String) (h : st.access_token = some t) (ht : t ≠ "") :
    get_access_token cfg tr st = ⟨.ok t, st, 0⟩ := by
  have hc : truthy st.access_token = true := by
    rw [h]
    exact (truthy_some_iff t).2 ht
  simp only [get_access_token, if_pos hc]
  rw [h]
  rfl

/-- Cache miss with a well-formed 200: one network call, token cached, bearer
header installed. -/
lemma get_access_token_fresh_success (cfg : Config) (tr : Response)
    (st : ClientState) (p : Payload) (t : String)
    (hnc : truthy st.access_token = false)
    (hcid : truthy cfg.client_id = true) (hcs : truthy cfg.client_secret = true)
    (h200 : tr.status_code = 200) (hj : tr.json = some p)
    (hf : p.lookup "access_token" = some t) :
    get_access_token cfg tr st =
      ⟨.ok t, ⟨some t, setHeader st.session_headers "Authorization" ("Bearer " ++ t)⟩,
        1⟩ := by
  simp only [get_access_token]
  rw [if_neg (by simp [hnc]), if_neg (not_not_intro ⟨hcid, hcs⟩), if_pos h200, hj]
  dsimp only
  rw [hf]

/-- C4: token acquisition is idempotent with respect to the network: a cached
token is returned with no network call, so two calls on one instance make
exactly one POST to the token endpoint; the first call extracts
`access_token` from the 200 body, caches it, and installs the session's
bearer header. -/
theorem C4_token_idempotent (cfg : Config) (tr : Response) (st : ClientState)
    (p : Payload) (t : String)
    (hnc : truthy st.access_token = false)
    (hcid : truthy cfg.client_id = true) (hcs : truthy cfg.client_secret = true)
    (h200 : tr.status_code = 200) (hj : tr.json = some p)
    (hf : p.lookup "access_token" = some t) (ht : t ≠ "") :
    (∀ (st' : ClientState) (t' : String), st'.access_token = some t' → t' ≠ "" →
        get_access_token cfg tr st' = ⟨.ok t', st', 0⟩)
    ∧ get_access_token cfg tr st =
        ⟨.ok t, ⟨some t, setHeader st.session_headers "Authorization" ("Bearer " ++ t)⟩, 1⟩
    ∧ get_access_token cfg tr (get_access_token cfg tr st).state =
        ⟨.ok t, (get_access_token cfg tr st).state, 0⟩
    ∧ (get_access_token cfg tr st).tokenCalls
        + (get_access_token cfg tr (get_access_token cfg tr st).state).tokenCalls = 1
    ∧ (get_access_token cfg tr st).state.session_headers.lookup "Authorization"
        = some ("Bearer " ++ t) := by
  have hfresh := get_access_token_fresh_success cfg tr st p t hnc hcid hcs h200 hj hf
  have hcache : ∀ (st' : ClientState) (t' : String), st'.access_token = some t' →
      t' ≠ "" → get_access_token cfg tr st' = ⟨.ok t', st', 0⟩ :=
    fun st' t' h h' => get_access_token_cached cfg tr st' t' h h'
  refine ⟨hcache, hfresh, ?_, ?_, ?_⟩
  · rw [hfresh]
    exact hcache _ t rfl ht
  · rw [hfresh,
      hcache ⟨some t, setHeader st.session_headers "Authorization" ("Bearer " ++ t)⟩
        t rfl ht]
    rfl
  · rw [hfresh]
    exact lookup_setHeader st.session_headers "Authorization" ("Bearer " ++ t)

/-- C4 witness: the fresh acquisition evaluated on concrete fixtures. -/
theorem C4_token_idempotent_witness :
    get_access_token cfgCreds tokenResp200 stFresh =
      ⟨.ok "newtok",
        ⟨some "newtok",
          setHeader stFresh.session_headers "Authorization" ("Bearer " ++ "newtok")⟩,
        1⟩ :=
  (C4_token_idempotent cfgCreds tokenResp200 stFresh [("access_token", "newtok")]
    "newtok" (by decide) (by decide) (by decide) rfl rfl (by decide) (by decide)).2.1

/-- C5: with no cached token, acquisition fails with `AuthenticationError`
before any network call when credentials are missing; a 401 gives the
generic credential-check message after one call; any other non-200 status
gives a message embedding the status code and body text after one call. -/
theorem C5_token_failure_modes (cfg : Config) (tr : Response) (st : ClientState)
    (hnc : truthy st.access_token = false) :
    (¬(truthy cfg.client_id = true ∧ truthy cfg.client_secret = true) →
        get_access_token cfg tr st = ⟨.error (.typed (.authenticationError
          "Client credentials not configured. Set NOBL9_CLIENT_ID and NOBL9_CLIENT_SECRET.")),
          st, 0⟩)
    ∧ (truthy cfg.client_id = true → truthy cfg.client_secret = true →
        tr.status_code = 401 →
        get_access_token cfg tr st = ⟨.error (.typed (.authenticationError
          "Failed to authenticate. Check your NOBL9_CLIENT_ID, NOBL9_CLIENT_SECRET, and NOBL9_ORG.")),
          st, 1⟩)
    ∧ (truthy cfg.client_id = true → truthy cfg.client_secret = true →
        tr.status_code ≠ 200 → tr.status_code ≠ 401 →
        get_access_token cfg tr st = ⟨.error (.typed (.authenticationError
          ("Token generation failed (HTTP " ++ toString tr.status_code ++ "): "
            ++ tr.text))), st, 1⟩) := by
  refine ⟨?_, ?_, ?_⟩
  · intro hcred
    simp only [get_access_token]
    rw [if_neg (by simp [hnc]), if_pos hcred]
  · intro hcid hcs h401
    simp only [get_access_token]
    rw [if_neg (by simp [hnc]), if_neg (not_not_intro ⟨hcid, hcs⟩),
      if_neg (by rw [h401]; decide), if_pos h401]
  · intro hcid hcs h200 h401
    simp only [get_access_token]
    rw [if_neg (by simp [hnc]), if_neg (not_not_intro ⟨hcid, hcs⟩),
      if_neg h200, if_neg h401]

/-- C5 witness: missing credentials fail before any network call. -/
theorem C5_token_failure_modes_witness :
    get_access_token cfgNoCreds tokenResp401 stFresh =
      ⟨.error (.typed (.authenticationError
        "Client credentials not configured. Set NOBL9_CLIENT_ID and NOBL9_CLIENT_SECRET.")),
        stFresh, 0⟩ :=
  (C5_token_failure_modes cfgNoCreds tokenResp401 stFresh (by decide)).1 (by decide)

/-! ### Claims C6, C9 and C10 -/

/-- C6: `post_external` fails with `AuthenticationError` before any network
call when a credential is missing; with credentials present it sends a
fresh Basic-auth header computed from `client_id:client_secret` in a local
header set, independent of the client state and its cached bearer token. -/
theorem C6_post_external_basic_auth (cfg : Config) (rc : RetryCfg) (path : String)
    (resp : Nat → Response) (st : ClientState) :
    (¬(truthy cfg.client_id = true ∧ truthy cfg.client_secret = true) →
        post_external cfg rc path resp st = ⟨.error (.typed (.authenticationError
          ("Client credentials required for external endpoint. "
            ++ "Set NOBL9_CLIENT_ID and NOBL9_CLIENT_SECRET."))), none, st, 0,
          cfg.base_url ++ "/api/dashboards/v1" ++ path⟩)
    ∧ (∀ cid cs, cfg.client_id = some cid → cfg.client_secret = some cs →
        cid ≠ "" → cs ≠ "" →
        (post_external cfg rc path resp st).sent_headers =
          some [("organization", cfg.organization),
            ("Authorization", "Basic " ++ b64encode (cid ++ ":" ++ cs)),
            ("Content-Type", "application/json")])
    ∧ (∀ st2 : ClientState, (post_external cfg rc path resp st2).sent_headers
        = (post_external cfg rc path resp st).sent_headers) := by
  refine ⟨?_, ?_, ?_⟩
  · intro hcred
    simp only [post_external]
    rw [if_pos hcred]
  · intro cid cs hcid hcs h1 h2
    have hc1 : truthy cfg.client_id = true := by
      rw [hcid]; exact (truthy_some_iff cid).2 h1
    have hc2 : truthy cfg.client_secret = true := by
      rw [hcs]; exact (truthy_some_iff cs).2 h2
    simp only [post_external]
    rw [if_neg (not_not_intro ⟨hc1, hc2⟩)]
    simp [hcid, hcs]
  · intro st2
    simp only [post_external]
    by_cases h : truthy cfg.client_id = true ∧ truthy cfg.client_secret = true
    · simp only [if_neg (not_not_intro h)]
    · simp only [if_pos h]

/-- C6 witness: the Basic-auth header sent for concrete credentials. -/
theorem C6_post_external_basic_auth_witness :
    (post_external cfgCreds defaultRetryCfg "/x" resp200ok stFresh).sent_headers =
      some [("organization", cfgCreds.organization),
        ("Authorization", "Basic " ++ b64encode ("myid" ++ ":" ++ "mysecret")),
        ("Content-Type", "application/json")] :=
  (C6_post_external_basic_auth cfgCreds defaultRetryCfg "/x" resp200ok stFresh).2.1
    "myid" "mysecret" rfl rfl (by decide) (by decide)

lemma ensure_authenticated_cached (cfg : Config) (tr : Response) (st : ClientState)
    (h : truthy st.access_token = true) :
    ensure_authenticated cfg tr st = ⟨.ok (st.access_token.getD ""), st, 0⟩ := by
  simp only [ensure_authenticated, if_pos h]

lemma get_cached (cfg : Config) (rc : RetryCfg) (tr : Response) (path : String)
    (resp : Nat → Response) (st : ClientState) (h : truthy st.access_token = true) :
    get cfg rc tr path resp st = ⟨(requestWithRetry rc resp).outcome, st, 0,
      cfg.base_url ++ "/api/dashboards/v1" ++ path⟩ := by
  simp only [get, ensure_authenticated_cached cfg tr st h]

lemma post_cached (cfg : Config) (rc : RetryCfg) (tr : Response) (path : String)
    (resp : Nat → Response) (st : ClientState) (h : truthy st.access_token = true) :
    post cfg rc tr path resp st = ⟨(requestWithRetry rc resp).outcome, st, 0,
      cfg.base_url ++ "/api/dashboards/v1" ++ path⟩ := by
  simp only [post, ensure_authenticated_cached cfg tr st h]

lemma put_cached (cfg : Config) (rc : RetryCfg) (tr : Response) (path : String)
    (resp : Nat → Response) (st : ClientState) (h : truthy st.access_token = true) :
    put cfg rc tr path resp st = ⟨(requestWithRetry rc resp).outcome, st, 0,
      cfg.base_url ++ "/api/dashboards/v1" ++ path⟩ := by
  simp only [put, ensure_authenticated_cached cfg tr st h]

/-- With a (truthy) cached token, any sequence of `get`/`post`/`put` calls
leaves the state unchanged and never touches the token endpoint. -/
lemma runOps_cached (cfg : Config) (rc : RetryCfg) (tr : Response) :
    ∀ (ops : List Op) (st : ClientState), truthy st.access_token = true →
      runOps cfg rc tr ops st = (st, 0) := by
  intro ops
  induction ops with
  | nil => intro st h; rfl
  | cons op ops ih =>
    intro st h
    cases op with
    | get path resp =>
      simp only [runOps, get_cached cfg rc tr path resp st h, ih st h]
    | post path resp =>
      simp only [runOps, post_cached cfg rc tr path resp st h, ih st h]
    | put path resp =>
      simp only [runOps, put_cached cfg rc tr path resp st h, ih st h]

/-- C9: a (truthy) pre-generated `api_token` is cached by the constructor and
installed as the session's bearer header, and every subsequent sequence of
`get`/`post`/`put` calls finds the cached token, leaves the state unchanged
and makes zero requests to `/api/accessToken` — with no assumption on
`client_id` or `client_secret`. -/
theorem C9_pretoken_skips_token_endpoint (cfg : Config) (t : String)
    (hat : cfg.api_token = some t) (ht : t ≠ "") :
    (initClient cfg).access_token = some t
    ∧ (initClient cfg).session_headers.lookup "Authorization" = some ("Bearer " ++ t)
    ∧ (∀ (rc : RetryCfg) (tr : Response) (ops : List Op),
        runOps cfg rc tr ops (initClient cfg) = (initClient cfg, 0)) := by
  have htr : truthy cfg.api_token = true := by
    rw [hat]; exact (truthy_some_iff t).2 ht
  have hinit : initClient cfg =
      ⟨cfg.api_token,
        setHeader [("organization", cfg.organization), ("Content-Type", "application/json")]
          "Authorization" ("Bearer " ++ cfg.api_token.getD "")⟩ := by
    simp only [initClient, if_pos htr]
  refine ⟨?_, ?_, ?_⟩
  · rw [hinit]
    exact hat
  · rw [hinit, hat]
    exact lookup_setHeader
      [("organization", cfg.organization), ("Content-Type", "application/json")]
      "Authorization" ("Bearer " ++ t)
  · intro rc tr ops
    apply runOps_cached
    rw [hinit]
    dsimp only
    exact htr

/-- C9 witness: a client built from a token-only config (no client
credentials) serves a `get` with zero token-endpoint requests. -/
theorem C9_pretoken_skips_token_endpoint_witness :
    runOps cfgToken defaultRetryCfg tokenResp401
      [Op.get "/status-page/status" resp200ok] (initClient cfgToken)
      = (initClient cfgToken, 0) :=
  (C9_pretoken_skips_token_endpoint cfgToken "tok" rfl (by decide)).2.2
    defaultRetryCfg tokenResp401 [Op.get "/status-page/status" resp200ok]

/-- C10: `post_external` never mutates the client state: the cached token and
the session's default headers (bearer header included) are identical before
and after the call, whether it succeeds or fails — the Basic-auth header
lives in a per-request header set only. -/
theorem C10_post_external_frame (cfg : Config) (rc : RetryCfg) (path : String)
    (resp : Nat → Response) (st : ClientState) :
    (post_external cfg rc path resp st).state = st
    ∧ (post_external cfg rc path resp st).state.access_token = st.access_token
    ∧ (post_external cfg rc path resp st).state.session_headers = st.session_headers := by
  have h : (post_external cfg rc path resp st).state = st := by
    simp only [post_external]
    by_cases hc : ¬(truthy cfg.client_id = true ∧ truthy cfg.client_secret = true)
    · rw [if_pos hc]
    · rw [if_neg hc]
  exact ⟨h, by rw [h], by rw [h]⟩

end StatusPage
